import Mathlib

/-!
# Verification of the interface-binding layer of `py_sd_bus`

A shallow embedding, in Lean 4, of `py_sd_bus/dbus_proxy.py`: the member
descriptors (`DbusMethod`, `DbusProperty`, `DbusSignal`), their bound-member
dispatch logic, the class-construction machinery (`DbusInterfaceMeta`), and the
instance-level binding/serving operations of `DbusInterfaceBase`.

Modelling conventions:
* Python values are modelled by the inductive type `Val`; Python's `None` is
  the constructor `Val.none`.
* Raised Python exceptions are modelled by `Except PyErr`; the `PyErr`
  constructors record the Python exception class (and message where the source
  supplies one).
* Python instance attributes that may be absent (because `__init__` never ran,
  as in `DbusInterfaceBase.new_connect`) are modelled by an outer `Option`:
  `Option.none` means the attribute is missing and reading it raises
  `AttributeError`.  An attribute whose Python value is `None` is the inner
  `Option.none` (fields of type `Option (Option _)`).
* `str.upper()` on a single character is modelled for the ASCII range only
  (`upperChar`), which is the range exercised by identifier conversion.
* Functions stored inside descriptors (`original_method`, `property_get`,
  `property_set`) are Lean functions from the instance state; coroutines are
  collapsed to their eventual result, a raising coroutine to `Except.error`.
-/

/-- Python exception values, tagged by exception class. -/
inductive PyErr where
  | typeError (msg : String)
  | valueError (msg : String)
  | attributeError (attr : String)
  | assertionError
  | nameError
  deriving DecidableEq, Repr

/-- Python values as they appear in this layer: `None`, scalars, tuples. -/
inductive Val where
  | none : Val
  | int : Int → Val
  | str : String → Val
  | bool : Bool → Val
  | tuple : List Val → Val

/-- The Python test `x is None`. -/
def Val.isNone : Val → Bool
  | Val.none => true
  | _ => false

/-- Reading a possibly-missing instance attribute: `AttributeError` when the
attribute was never assigned (e.g. `__init__` skipped). -/
def getAttr {α : Type} (v : Option α) (attr : String) : Except PyErr α :=
  match v with
  | some x => Except.ok x
  | none => Except.error (PyErr.attributeError attr)

/-- `assert x is not None` on an attribute holding an optional value. -/
def assertNotNone {α : Type} (v : Option α) : Except PyErr α :=
  match v with
  | some x => Except.ok x
  | none => Except.error PyErr.assertionError

/-- ASCII model of Python's `str.upper()` on one character
(`dbus_proxy.py` applies it to identifier characters only). -/
def upperChar (c : Char) : Char :=
  if 97 ≤ c.toNat ∧ c.toNat ≤ 122 then Char.ofNat (c.toNat - 32) else c

/-- Tail loop of `_method_name_converter` (dbus_proxy.py:47-63): the
`upper_next_one` flag starts `False`; an underscore is dropped and sets the
flag, any other character is emitted (uppercased when the flag is set). -/
def methodNameConverterTail : Bool → List Char → List Char
  | _, [] => []
  | upperNextOne, c :: rest =>
    if c = '_' then methodNameConverterTail true rest
    else if upperNextOne then upperChar c :: methodNameConverterTail false rest
    else c :: methodNameConverterTail false rest

/-- `_method_name_converter` (dbus_proxy.py:47-63): uppercase the first
character, then run the underscore-dropping loop.  The Python generator is
only ever consumed via `''.join`, so it is modelled as the joined character
list.  (On the empty string the Python generator raises; callers always pass
a function `__name__`, which is non-empty, and every theorem below assumes a
non-empty input.) -/
def method_name_converter : List Char → List Char
  | [] => []
  | c :: rest => upperChar c :: methodNameConverterTail false rest

theorem char_ofNat_toNat (n : Nat) (h : n.isValidChar) : (Char.ofNat n).toNat = n := by
  simp [Char.ofNat, h, Char.ofNatAux, Char.toNat, UInt32.toNat, UInt32.ofNatCore,
    BitVec.toNat_ofNatLt]

theorem upperChar_toNat_of_lower (c : Char) (h1 : 97 ≤ c.toNat) (h2 : c.toNat ≤ 122) :
    (upperChar c).toNat = c.toNat - 32 := by
  unfold upperChar
  rw [if_pos ⟨h1, h2⟩]
  exact char_ofNat_toNat _ (Or.inl (by omega))

theorem upperChar_isUpper_of_lower (c : Char) (h1 : 97 ≤ c.toNat) (h2 : c.toNat ≤ 122) :
    65 ≤ (upperChar c).toNat ∧ (upperChar c).toNat ≤ 90 := by
  rw [upperChar_toNat_of_lower c h1 h2]
  omega

theorem ne_underscore_of_toNat_ne (c : Char) (h : c.toNat ≠ 95) : c ≠ '_' := by
  intro hc
  exact h (hc ▸ rfl)

/-- A character of a lowercase identifier: an ASCII lowercase letter or an
underscore. -/
def lowerOrUnderscore (c : Char) : Prop :=
  (97 ≤ c.toNat ∧ c.toNat ≤ 122) ∨ c = '_'

instance (c : Char) : Decidable (lowerOrUnderscore c) := by
  unfold lowerOrUnderscore
  infer_instance

theorem methodNameConverterTail_no_underscore (l : List Char) (b : Bool)
    (hl : ∀ c ∈ l, lowerOrUnderscore c) :
    '_' ∉ methodNameConverterTail b l := by
  induction l generalizing b with
  | nil => simp [methodNameConverterTail]
  | cons c rest ih =>
    have hc := hl c (List.mem_cons_self c rest)
    have hrest : ∀ x ∈ rest, lowerOrUnderscore x :=
      fun x hx => hl x (List.mem_cons_of_mem c hx)
    by_cases h : c = '_'
    · simp only [methodNameConverterTail, if_pos h]
      exact ih true hrest
    · have hlow : 97 ≤ c.toNat ∧ c.toNat ≤ 122 := hc.resolve_right h
      have hupper : (upperChar c).toNat ≠ 95 := by
        have := upperChar_isUpper_of_lower c hlow.1 hlow.2
        omega
      cases b with
      | false =>
        simp only [methodNameConverterTail, if_neg h, Bool.false_eq_true, if_false,
          List.mem_cons, not_or]
        exact ⟨fun h1 => h h1.symm, ih false hrest⟩
      | true =>
        simp only [methodNameConverterTail, if_neg h, if_true, List.mem_cons, not_or]
        exact ⟨fun h1 => ne_underscore_of_toNat_ne _ hupper h1.symm, ih false hrest⟩

/-- C6: for every non-empty identifier made of lowercase words separated by
underscores, `_method_name_converter` capitalizes the first character, deletes
every underscore while capitalizing the character following it, and passes
other characters through, so the output starts with an uppercase ASCII letter
and contains no underscore. -/
theorem c6_name_mapper (s : List Char) (hne : s ≠ [])
    (hfirst : 97 ≤ (s.headD 'a').toNat ∧ (s.headD 'a').toNat ≤ 122)
    (hl : ∀ c ∈ s, lowerOrUnderscore c) :
    (65 ≤ ((method_name_converter s).headD 'A').toNat ∧
      ((method_name_converter s).headD 'A').toNat ≤ 90) ∧
    '_' ∉ method_name_converter s := by
  match s, hne with
  | c :: rest, _ =>
    have hfirst' : 97 ≤ c.toNat ∧ c.toNat ≤ 122 := by
      simpa using hfirst
    have hrest : ∀ x ∈ rest, lowerOrUnderscore x :=
      fun x hx => hl x (List.mem_cons_of_mem c hx)
    have hbounds := upperChar_isUpper_of_lower c hfirst'.1 hfirst'.2
    refine ⟨by simpa [method_name_converter] using hbounds, ?_⟩
    simp only [method_name_converter, List.mem_cons, not_or]
    refine ⟨?_, methodNameConverterTail_no_underscore rest false hrest⟩
    intro h1
    exact ne_underscore_of_toNat_ne _ (by omega) h1.symm

theorem c6_name_mapper_witness :
    ((65 ≤ ((method_name_converter
        ['s', 'n', 'a', 'k', 'e', '_', 'c', 'a', 's', 'e']).headD 'A').toNat ∧
      ((method_name_converter
        ['s', 'n', 'a', 'k', 'e', '_', 'c', 'a', 's', 'e']).headD 'A').toNat ≤ 90) ∧
    '_' ∉ method_name_converter ['s', 'n', 'a', 'k', 'e', '_', 'c', 'a', 's', 'e']) ∧
    method_name_converter ['s', 'n', 'a', 'k', 'e', '_', 'c', 'a', 's', 'e'] =
      ['S', 'n', 'a', 'k', 'e', 'C', 'a', 's', 'e'] :=
  ⟨c6_name_mapper ['s', 'n', 'a', 'k', 'e', '_', 'c', 'a', 's', 'e']
      (by decide) (by decide) (by decide),
    by decide⟩

/-- One entry of a server-side interface registration: what
`SdBusInterface.add_method` / `add_property` / `add_signal` receive
(dbus_proxy.py:624-651).  `property_has_set` records whether a set entry
point was supplied. -/
inductive RegEntry where
  | method (method_name input_signature input_args_names result_signature : String)
      (result_args_names : List String) (flags : Nat)
  | property (property_name property_signature : String) (has_set : Bool) (flags : Nat)
  | signal (signal_name signature : String) (args_names : List String) (flags : Nat)
  deriving DecidableEq, Repr

/-- A server-side interface registration (`SdBusInterface`). -/
structure Registration where
  entries : List RegEntry
  deriving DecidableEq, Repr

/-- Messages handed to the bus engine, as constructed by `dbus_proxy.py`. -/
inductive Msg where
  | method_call (dest path iface member : String) (payload : Option (String × List Val))
  | method_reply (payload : Option (String × List Val))
  | error_reply (err : PyErr)
  | signal_msg (path iface member signature : String) (payload : List Val)
  | property_get_msg (dest path iface prop : String)
  | property_set_msg (dest path iface prop variant_signature : String) (value : Val)

/-- `DbusSignal` descriptor (dbus_proxy.py:399-417). -/
structure DbusSignal where
  signal_name : String
  signature : String
  args_names : List String
  flags : Nat
  interface_name : Option String
  serving_enabled : Bool
  deriving DecidableEq, Repr

/-- Per-instance state of `DbusInterfaceBase` (dbus_proxy.py:575-588).
Each field is `Option`-wrapped at the outside: `none` means the attribute was
never assigned (`__init__` did not run), so reading it raises
`AttributeError`.  A weak reference in a local signal queue list is
`Option (List Val)`: `some q` is a live queue with contents `q`, `none` a
dead reference (`ref()` returned `None`). -/
structure DbusInterfaceInstance where
  activated_interfaces : Option (List Registration)
  is_binded : Option Bool
  remote_service_name : Option (Option String)
  remote_object_path : Option (Option String)
  attached_bus : Option (Option Nat)
  serving_object_path : Option (Option String)
  local_signal_queues : Option (List (DbusSignal × List (Option (List Val))))

/-- `DbusMethod` descriptor (dbus_proxy.py:81-120).  `args_names` is
`getfullargspec(async_function).args[1:]` (positional parameters without
`self`), `args_defaults` the declared default values.  `original_method` is
the underlying async function, collapsed to its eventual result; a raising
coroutine is `Except.error`. -/
structure DbusMethod where
  original_method :
    DbusInterfaceInstance → List Val → List (String × Val) → Except PyErr Val
  args_names : List String
  args_defaults : List Val
  method_name : String
  input_signature : String
  input_args_names : String
  result_signature : String
  result_args_names : List String
  flags : Nat
  interface_name : Option String
  serving_enabled : Bool

/-- `self.num_of_args = len(self.args_names)` (dbus_proxy.py:96). -/
def DbusMethod.num_of_args (m : DbusMethod) : Nat := m.args_names.length

/-- `default_args_start_at = num_of_args - len(args_defaults)`
(dbus_proxy.py:101). -/
def DbusMethod.default_args_start_at (m : DbusMethod) : Nat :=
  m.num_of_args - m.args_defaults.length

/-- `Except` bind, written out so that proofs can unfold it by name. -/
def exBind {α β : Type} (x : Except PyErr α) (f : α → Except PyErr β) :
    Except PyErr β :=
  match x with
  | Except.ok a => f a
  | Except.error e => Except.error e

/-- `kwargs.get(a_name)` (dbus_proxy.py:203): `None` when the key is absent;
a stored value of `None` is indistinguishable from a missing key. -/
def kwargsGet (kwargs : List (String × Val)) (name : String) : Val :=
  match kwargs.find? (fun kv => kv.1 == name) with
  | some kv => kv.2
  | none => Val.none

/-- The value `next(default_args_iter)` yields at slot `i`: the iterator is
advanced only when `i >= default_args_start_at` (dbus_proxy.py:198-201), so it
yields `args_defaults[i - default_args_start_at]`; `Val.none` stands for the
slots where the iterator is not consumed. -/
def DbusMethod.defaultVal (m : DbusMethod) (i : Nat) : Val :=
  if m.default_args_start_at ≤ i then
    m.args_defaults.getD (i - m.default_args_start_at) Val.none
  else Val.none

/-- The `if next_arg is not None / elif next_kwarg is not None / elif
next_default_arg is not None / else raise` chain of `_rebuild_args`
(dbus_proxy.py:205-212). -/
def pickNonNone (next_arg next_kwarg next_default : Val) : Option Val :=
  if next_arg.isNone = false then some next_arg
  else if next_kwarg.isNone = false then some next_kwarg
  else if next_default.isNone = false then some next_default
  else none

/-- The `for i, a_name in enumerate(args_spec.args[1:])` loop of
`_rebuild_args` (dbus_proxy.py:192-212), recursing over the remaining
parameter names with `i` the current slot index.  `args.getD i Val.none` is
`next(passed_args_iter)` with `None` on `StopIteration`. -/
def rebuildLoop (m : DbusMethod) (args : List Val) (kwargs : List (String × Val)) :
    List String → Nat → Except PyErr (List Val)
  | [], _ => Except.ok []
  | a_name :: rest, i =>
    match pickNonNone (args.getD i Val.none) (kwargsGet kwargs a_name)
        (m.defaultVal i) with
    | some v =>
      match rebuildLoop m args kwargs rest (i + 1) with
      | Except.ok l => Except.ok (v :: l)
      | Except.error e => Except.error e
    | none => Except.error (PyErr.typeError "Could not flatten the args")

/-- `DbusMethodBinded._rebuild_args` (dbus_proxy.py:163-214). -/
def DbusMethodBinded.rebuild_args (m : DbusMethod) (args : List Val)
    (kwargs : List (String × Val)) : Except PyErr (List Val) :=
  rebuildLoop m args kwargs m.args_names 0

/-- `DbusMethodBinded._call_dbus` (dbus_proxy.py:128-145): assert the binding
attributes, build a method-call message addressed to the remote peer, append
the arguments when non-empty.  The message that is sent is returned; the
reply round trip happens inside the bus engine. -/
def DbusMethodBinded.call_dbus (m : DbusMethod) (inst : DbusInterfaceInstance)
    (args : List Val) : Except PyErr Msg :=
  exBind (getAttr inst.attached_bus "attached_bus") fun busOpt =>
  exBind (assertNotNone busOpt) fun _ =>
  exBind (getAttr inst.remote_service_name "remote_service_name") fun svcOpt =>
  exBind (assertNotNone svcOpt) fun svc =>
  exBind (getAttr inst.remote_object_path "remote_object_path") fun pathOpt =>
  exBind (assertNotNone pathOpt) fun path =>
  exBind (assertNotNone m.interface_name) fun iname =>
  Except.ok (Msg.method_call svc path iname m.method_name
    (if args.isEmpty then Option.none else some (m.input_signature, args)))

/-- The result of `DbusMethodBinded.__call__`: either a bus message was built
and sent, or the underlying function was invoked locally (its eventual
result recorded, including a raise on await). -/
inductive CallOutcome where
  | bus (message : Msg)
  | localResult (result : Except PyErr Val)

/-- `DbusMethodBinded.__call__` (dbus_proxy.py:147-161): proxy-bound
instances send over the bus (arguments as-is at full positional count, with
`assert not kwargs`; otherwise rebuilt); unbound instances invoke the
underlying function directly. -/
def DbusMethodBinded.call (m : DbusMethod) (inst : DbusInterfaceInstance)
    (args : List Val) (kwargs : List (String × Val)) : Except PyErr CallOutcome :=
  exBind (getAttr inst.is_binded "is_binded") fun isBinded =>
  if isBinded then
    if args.length = m.num_of_args then
      if kwargs.isEmpty then
        exBind (DbusMethodBinded.call_dbus m inst args) fun msg =>
          Except.ok (CallOutcome.bus msg)
      else Except.error PyErr.assertionError
    else
      exBind (DbusMethodBinded.rebuild_args m args kwargs) fun rebuilt =>
      exBind (DbusMethodBinded.call_dbus m inst rebuilt) fun msg =>
        Except.ok (CallOutcome.bus msg)
  else
    Except.ok (CallOutcome.localResult (m.original_method inst args kwargs))

/-- Decoding of an inbound request payload (dbus_proxy.py:226-231): a tuple
is splatted into positional arguments, `None` means no arguments, any other
value is passed as the single argument. -/
def decode_request (request_data : Val) : List Val :=
  match request_data with
  | Val.tuple xs => xs
  | Val.none => []
  | v => [v]

/-- Encoding of the local result into the reply (dbus_proxy.py:233-238): a
tuple is appended element-wise under the result signature, `None` yields an
empty reply, any other value is appended as the sole output value. -/
def encode_reply (m : DbusMethod) (reply_data : Val) : Option (String × List Val) :=
  match reply_data with
  | Val.tuple xs => some (m.result_signature, xs)
  | Val.none => Option.none
  | v => some (m.result_signature, [v])

/-- `DbusMethodBinded._call_from_dbus` (dbus_proxy.py:216-240): decode the
request, invoke the local implementation, encode and send the reply.  A raise
from the local implementation propagates out of this function. -/
def DbusMethodBinded.call_from_dbus (m : DbusMethod) (inst : DbusInterfaceInstance)
    (request_data : Val) : Except PyErr Msg :=
  exBind (m.original_method inst (decode_request request_data) []) fun reply_data =>
  Except.ok (Msg.method_reply (encode_reply m reply_data))

/-- Modelled from the spec: the server-side dispatch boundary lives in the
bus engine binding (`sd_bus_internals`, which is part of this repository but
not under src/); it invokes the registered entry point
`DbusMethodBinded._call_from_dbus` and, per the spec, translates any error
raised by the local implementation into a protocol-level error reply instead
of letting it propagate. -/
def dispatch_boundary (m : DbusMethod) (inst : DbusInterfaceInstance)
    (request_data : Val) : Msg :=
  match DbusMethodBinded.call_from_dbus m inst request_data with
  | Except.ok msg => msg
  | Except.error e => Msg.error_reply e

/-- The value slot `i` actually receives in `_rebuild_args` when the current
parameter name is `a_name`: the first of (positional, keyword, default) that
is not `None`. -/
def resolveSlotName (m : DbusMethod) (args : List Val) (kwargs : List (String × Val))
    (i : Nat) (a_name : String) : Option Val :=
  pickNonNone (args.getD i Val.none) (kwargsGet kwargs a_name) (m.defaultVal i)

/-- `resolveSlotName` at the method's own parameter name for slot `i`. -/
def resolveSlot (m : DbusMethod) (args : List Val) (kwargs : List (String × Val))
    (i : Nat) : Option Val :=
  resolveSlotName m args kwargs i (m.args_names.getD i "")

/-- The per-slot priority rule as claim C1 states it: a supplied positional
argument if present (slot index within `args`, whatever the value), else a
supplied keyword argument under the parameter name (whatever the value), else
the declared default if the slot has one; availability is presence, not
non-`None`-ness. -/
def claimResolveSlot (m : DbusMethod) (args : List Val) (kwargs : List (String × Val))
    (i : Nat) : Option Val :=
  if i < args.length then some (args.getD i Val.none)
  else
    match kwargs.find? (fun kv => kv.1 == m.args_names.getD i "") with
    | some kv => some kv.2
    | none =>
      if m.default_args_start_at ≤ i ∧ i < m.num_of_args then
        some (m.args_defaults.getD (i - m.default_args_start_at) Val.none)
      else none

/-- A concrete method descriptor with parameter list `(a, b=2)` (after
`self`). -/
def c1Method : DbusMethod where
  original_method := fun _ _ _ => Except.ok Val.none
  args_names := ["a", "b"]
  args_defaults := [Val.int 2]
  method_name := "AB"
  input_signature := "ii"
  input_args_names := ""
  result_signature := ""
  result_args_names := []
  flags := 0
  interface_name := some "org.example.Test"
  serving_enabled := true

/-- C1 counterexample: for parameters `(a, b=2)` called with the single
positional argument `None`, the claim's priority rule resolves every slot
(slot `a` from the supplied positional `None`, slot `b` from its default),
so the claim says `[None, 2]` is reconstructed — but `_rebuild_args` raises
`TypeError('Could not flatten the args')`, because the code treats a
supplied `None` as absent at every priority level. -/
theorem c1_counterexample :
    claimResolveSlot c1Method [Val.none] [] 0 = some Val.none ∧
    claimResolveSlot c1Method [Val.none] [] 1 = some (Val.int 2) ∧
    DbusMethodBinded.rebuild_args c1Method [Val.none] [] =
      Except.error (PyErr.typeError "Could not flatten the args") :=
  ⟨rfl, rfl, rfl⟩

theorem rebuildLoop_ok (m : DbusMethod) (args : List Val)
    (kwargs : List (String × Val)) (names : List String) :
    ∀ i out, rebuildLoop m args kwargs names i = Except.ok out →
      out.length = names.length ∧
      ∀ j, j < names.length →
        resolveSlotName m args kwargs (i + j) (names.getD j "") =
          some (out.getD j Val.none) := by
  induction names with
  | nil =>
    intro i out h
    simp only [rebuildLoop] at h
    cases h
    exact ⟨rfl, fun j hj => absurd hj (Nat.not_lt_zero j)⟩
  | cons a_name rest ih =>
    intro i out h
    simp only [rebuildLoop] at h
    cases hp : pickNonNone (args.getD i Val.none) (kwargsGet kwargs a_name)
        (m.defaultVal i) with
    | none => rw [hp] at h; cases h
    | some v =>
      rw [hp] at h
      cases hr : rebuildLoop m args kwargs rest (i + 1) with
      | error e => rw [hr] at h; cases h
      | ok l =>
        rw [hr] at h
        cases h
        obtain ⟨hlen, hslots⟩ := ih (i + 1) l hr
        refine ⟨by simp [hlen], ?_⟩
        intro j hj
        cases j with
        | zero =>
          simpa [resolveSlotName] using hp
        | succ k =>
          have hk : k < rest.length := by
            simpa using Nat.lt_of_succ_lt_succ hj
          have hstep := hslots k hk
          have harith : i + (k + 1) = i + 1 + k := by omega
          simpa [harith] using hstep

theorem rebuildLoop_isOk (m : DbusMethod) (args : List Val)
    (kwargs : List (String × Val)) (names : List String) :
    ∀ i, (∀ j, j < names.length →
        (resolveSlotName m args kwargs (i + j) (names.getD j "")).isSome = true) →
      ∃ out, rebuildLoop m args kwargs names i = Except.ok out := by
  induction names with
  | nil => exact fun i _ => ⟨[], rfl⟩
  | cons a_name rest ih =>
    intro i hall
    have h0 := hall 0 (Nat.succ_pos _)
    rw [Option.isSome_iff_exists] at h0
    obtain ⟨v, hv⟩ := h0
    obtain ⟨l, hl⟩ := ih (i + 1) (fun j hj => by
      have hstep := hall (j + 1) (Nat.succ_lt_succ hj)
      have harith : i + (j + 1) = i + 1 + j := by omega
      simpa [harith] using hstep)
    refine ⟨v :: l, ?_⟩
    simp only [rebuildLoop]
    have hv' : pickNonNone (args.getD i Val.none) (kwargsGet kwargs a_name)
        (m.defaultVal i) = some v := by
      simpa [resolveSlotName] using hv
    rw [hv', hl]

theorem rebuildLoop_error (m : DbusMethod) (args : List Val)
    (kwargs : List (String × Val)) (names : List String) :
    ∀ i e, rebuildLoop m args kwargs names i = Except.error e →
      e = PyErr.typeError "Could not flatten the args" := by
  induction names with
  | nil => intro i e h; simp only [rebuildLoop] at h; cases h
  | cons a_name rest ih =>
    intro i e h
    simp only [rebuildLoop] at h
    cases hp : pickNonNone (args.getD i Val.none) (kwargsGet kwargs a_name)
        (m.defaultVal i) with
    | none => rw [hp] at h; cases h; rfl
    | some v =>
      rw [hp] at h
      cases hr : rebuildLoop m args kwargs rest (i + 1) with
      | error e2 =>
        rw [hr] at h
        cases h
        exact ih (i + 1) _ hr
      | ok l => rw [hr] at h; cases h

/-- C1 amended: if a proxy-bound call supplies exactly the descriptor's full
positional-argument count (and no keywords, which the code asserts), the
arguments are sent as-is; otherwise `_rebuild_args` reconstructs the full
positional list per parameter slot in priority order — supplied positional,
then keyword under the parameter name, then declared default — where a value
equal to `None` is treated as absent at every level, and raises
`TypeError('Could not flatten the args')` (the spec's ArgumentError) when no
non-`None` candidate exists for a slot. -/
theorem c1_rebuild_amended (m : DbusMethod) (args : List Val)
    (kwargs : List (String × Val)) :
    (∀ out, DbusMethodBinded.rebuild_args m args kwargs = Except.ok out →
      out.length = m.num_of_args ∧
      ∀ j, j < m.num_of_args →
        resolveSlot m args kwargs j = some (out.getD j Val.none)) ∧
    ((∀ j, j < m.num_of_args → (resolveSlot m args kwargs j).isSome = true) →
      ∃ out, DbusMethodBinded.rebuild_args m args kwargs = Except.ok out) ∧
    (∀ e, DbusMethodBinded.rebuild_args m args kwargs = Except.error e →
      e = PyErr.typeError "Could not flatten the args") ∧
    (∀ inst : DbusInterfaceInstance, inst.is_binded = some true →
      args.length = m.num_of_args → kwargs = [] →
      DbusMethodBinded.call m inst args kwargs =
        exBind (DbusMethodBinded.call_dbus m inst args) fun msg =>
          Except.ok (CallOutcome.bus msg)) := by
  refine ⟨?_, ?_, ?_, ?_⟩
  · intro out h
    obtain ⟨hlen, hslots⟩ :=
      rebuildLoop_ok m args kwargs m.args_names 0 out h
    refine ⟨hlen, ?_⟩
    intro j hj
    have := hslots j hj
    simpa [resolveSlot] using this
  · intro hall
    exact rebuildLoop_isOk m args kwargs m.args_names 0
      (fun j hj => by simpa [resolveSlot] using hall j hj)
  · intro e h
    exact rebuildLoop_error m args kwargs m.args_names 0 e h
  · intro inst hb hlen hkw
    subst hkw
    simp [DbusMethodBinded.call, hb, getAttr, exBind, hlen]

theorem c1_rebuild_amended_witness :
    DbusMethodBinded.rebuild_args c1Method [Val.int 10] [("b", Val.int 99)] =
      Except.ok [Val.int 10, Val.int 99] ∧
    (∃ out, DbusMethodBinded.rebuild_args c1Method [Val.int 10] [("b", Val.int 99)] =
      Except.ok out) := by
  constructor
  · rfl
  · exact (c1_rebuild_amended c1Method [Val.int 10] [("b", Val.int 99)]).2.1
      (by
        intro j hj
        have h2 : j < 2 := hj
        interval_cases j <;> rfl)

/-- C8: a method call on an instance that is not proxy-bound bypasses the bus
entirely: `DbusMethodBinded.__call__` invokes the descriptor's underlying
function directly against the instance with the caller's positional and
keyword arguments and returns its result; no bus message is constructed. -/
theorem c8_local_call (m : DbusMethod) (inst : DbusInterfaceInstance)
    (args : List Val) (kwargs : List (String × Val))
    (hb : inst.is_binded = some false) :
    DbusMethodBinded.call m inst args kwargs =
      Except.ok (CallOutcome.localResult (m.original_method inst args kwargs)) := by
  simp [DbusMethodBinded.call, hb, getAttr, exBind]

/-- An unbound instance as produced by `DbusInterfaceBase.__init__`
(dbus_proxy.py:580-588): every attribute assigned, `is_binded = False`,
empty collections, `None` binding fields. -/
def initInstance : DbusInterfaceInstance where
  activated_interfaces := some []
  is_binded := some false
  remote_service_name := some Option.none
  remote_object_path := some Option.none
  attached_bus := some Option.none
  serving_object_path := some Option.none
  local_signal_queues := some []

theorem c8_local_call_witness :
    DbusMethodBinded.call c1Method initInstance [Val.int 5] [] =
      Except.ok (CallOutcome.localResult (Except.ok Val.none)) :=
  (c8_local_call c1Method initInstance [Val.int 5] [] rfl).trans rfl

/-- C4: during inbound server-side method dispatch, an error raised by the
local implementation is caught at the dispatch boundary and translated into a
protocol-level error reply to the remote caller — it never propagates past
the dispatch entry point, whose output is always a reply message; a
successful result is encoded as the ordinary reply.  The boundary is
`dispatch_boundary`, modelled from the spec (its code lives in the
`sd_bus_internals` bus-engine binding, not under src/). -/
theorem c4_dispatch_error_reply (m : DbusMethod) (inst : DbusInterfaceInstance)
    (request_data : Val) :
    (∀ e, m.original_method inst (decode_request request_data) [] = Except.error e →
      dispatch_boundary m inst request_data = Msg.error_reply e) ∧
    (∀ v, m.original_method inst (decode_request request_data) [] = Except.ok v →
      dispatch_boundary m inst request_data =
        Msg.method_reply (encode_reply m v)) := by
  constructor
  · intro e h
    simp [dispatch_boundary, DbusMethodBinded.call_from_dbus, h, exBind]
  · intro v h
    simp [dispatch_boundary, DbusMethodBinded.call_from_dbus, h, exBind]

/-- A concrete method descriptor whose implementation raises
`ValueError('boom')`. -/
def c4Method : DbusMethod where
  original_method := fun _ _ _ => Except.error (PyErr.valueError "boom")
  args_names := []
  args_defaults := []
  method_name := "Boom"
  input_signature := ""
  input_args_names := ""
  result_signature := ""
  result_args_names := []
  flags := 0
  interface_name := some "org.example.Test"
  serving_enabled := true

theorem c4_dispatch_error_reply_witness :
    dispatch_boundary c4Method initInstance Val.none =
      Msg.error_reply (PyErr.valueError "boom") :=
  (c4_dispatch_error_reply c4Method initInstance Val.none).1
    (PyErr.valueError "boom") rfl

/-- `DbusProperty` descriptor (dbus_proxy.py:269-295).  `property_get` and
`property_set` act on the instance state; `property_set` is absent for a
read-only property. -/
structure DbusProperty where
  property_name : String
  property_signature : String
  property_get : DbusInterfaceInstance → Val
  property_set : Option (DbusInterfaceInstance → Val → DbusInterfaceInstance)
  flags : Nat
  interface_name : Option String
  serving_enabled : Bool

/-- `DbusProperty.setter` (dbus_proxy.py:292-295): stores a new set-function
on the descriptor.  Python mutates the descriptor object in place; the model
returns the descriptor value after the assignment. -/
def DbusProperty.setter (p : DbusProperty)
    (new_set_function : DbusInterfaceInstance → Val → DbusInterfaceInstance) :
    DbusProperty :=
  { p with property_set := some new_set_function }

/-- `DbusPropertyBinded.get_sync` (dbus_proxy.py:308-309): always the local
getter, in any binding mode. -/
def DbusPropertyBinded.get_sync (p : DbusProperty)
    (inst : DbusInterfaceInstance) : Val :=
  p.property_get inst

/-- `DbusPropertyBinded.set_sync` (dbus_proxy.py:311-316): raises
`ValueError('Property has no setter')` when the descriptor has no setter —
before any mutation, so the instance is returned unchanged — otherwise
applies the local setter.  It never consults the binding mode. -/
def DbusPropertyBinded.set_sync (p : DbusProperty) (inst : DbusInterfaceInstance)
    (complete_object : Val) : Except PyErr Unit × DbusInterfaceInstance :=
  match p.property_set with
  | none => (Except.error (PyErr.valueError "Property has no setter"), inst)
  | some f => (Except.ok (), f inst complete_object)

/-- Result of `set_async`: the local setter ran, or a property-set message
carrying a variant-wrapped value was built and sent to the remote peer. -/
inductive SetOutcome where
  | localSet
  | busSet (message : Msg)

/-- `DbusPropertyBinded.set_async` (dbus_proxy.py:339-363): on an instance
that is not proxy-bound it behaves like the synchronous setter (including
the `ValueError` on a missing setter); on a proxy-bound instance it builds a
property-set message wrapping the value as a variant of the property
signature. -/
def DbusPropertyBinded.set_async (p : DbusProperty) (inst : DbusInterfaceInstance)
    (complete_object : Val) : Except PyErr SetOutcome × DbusInterfaceInstance :=
  match inst.is_binded with
  | none => (Except.error (PyErr.attributeError "is_binded"), inst)
  | some false =>
    match p.property_set with
    | none => (Except.error (PyErr.valueError "Property has no setter"), inst)
    | some f => (Except.ok SetOutcome.localSet, f inst complete_object)
  | some true =>
    (exBind (getAttr inst.attached_bus "attached_bus") fun busOpt =>
     exBind (assertNotNone busOpt) fun _ =>
     exBind (getAttr inst.remote_service_name "remote_service_name") fun svcOpt =>
     exBind (assertNotNone svcOpt) fun svc =>
     exBind (getAttr inst.remote_object_path "remote_object_path") fun pathOpt =>
     exBind (assertNotNone pathOpt) fun path =>
     exBind (assertNotNone p.interface_name) fun iname =>
     Except.ok (SetOutcome.busSet (Msg.property_set_msg svc path iname
       p.property_name p.property_signature complete_object)), inst)

/-- C7: a set attempt on a property descriptor that has no setter fails with
`ValueError('Property has no setter')` (the spec's NoSetterError) under the
synchronous accessor in any binding mode, and under the asynchronous
accessor on an instance that is not proxy-bound; in both cases the instance
state is returned unchanged. -/
theorem c7_no_setter (p : DbusProperty) (inst : DbusInterfaceInstance)
    (complete_object : Val) (hset : p.property_set = Option.none) :
    DbusPropertyBinded.set_sync p inst complete_object =
      (Except.error (PyErr.valueError "Property has no setter"), inst) ∧
    (inst.is_binded = some false →
      DbusPropertyBinded.set_async p inst complete_object =
        (Except.error (PyErr.valueError "Property has no setter"), inst)) := by
  constructor
  · simp [DbusPropertyBinded.set_sync, hset]
  · intro hb
    simp [DbusPropertyBinded.set_async, hb, hset]

/-- A read-only property descriptor (getter only). -/
def roProperty : DbusProperty where
  property_name := "SomeProp"
  property_signature := "s"
  property_get := fun _ => Val.str "x"
  property_set := Option.none
  flags := 0
  interface_name := some "org.example.Test"
  serving_enabled := true

theorem c7_no_setter_witness :
    DbusPropertyBinded.set_sync roProperty initInstance (Val.int 1) =
      (Except.error (PyErr.valueError "Property has no setter"), initInstance) ∧
    DbusPropertyBinded.set_async roProperty initInstance (Val.int 1) =
      (Except.error (PyErr.valueError "Property has no setter"), initInstance) :=
  ⟨(c7_no_setter roProperty initInstance (Val.int 1) rfl).1,
    (c7_no_setter roProperty initInstance (Val.int 1) rfl).2 rfl⟩

/-- C9 counterexample: `DbusProperty.setter` is an operation that remains
available after the declaring class has been constructed, and it mutates the
descriptor: on a concrete read-only property it flips the stored setter from
absent to present, so descriptor fields are not all immutable. -/
theorem c9_counterexample :
    (DbusProperty.setter roProperty (fun i _ => i)).property_set.isSome = true ∧
    roProperty.property_set.isSome = false :=
  ⟨rfl, rfl⟩

/-- C9 amended: member descriptors are immutable after class construction
except for the property setter slot: `DbusProperty.setter` — the only
descriptor-mutating operation in the layer, normally invoked while the class
body is still executing — replaces `property_set` alone and preserves every
other descriptor field (name, signature, getter, flags, owning interface
name, serving flag). -/
theorem c9_setter_only_mutation (p : DbusProperty)
    (f : DbusInterfaceInstance → Val → DbusInterfaceInstance) :
    (DbusProperty.setter p f).property_name = p.property_name ∧
    (DbusProperty.setter p f).property_signature = p.property_signature ∧
    (DbusProperty.setter p f).property_get = p.property_get ∧
    (DbusProperty.setter p f).flags = p.flags ∧
    (DbusProperty.setter p f).interface_name = p.interface_name ∧
    (DbusProperty.setter p f).serving_enabled = p.serving_enabled ∧
    (DbusProperty.setter p f).property_set = some f :=
  ⟨rfl, rfl, rfl, rfl, rfl, rfl, rfl⟩

/-- A `DbusSomething` value as it sits in a class namespace. -/
inductive DbusDescriptor where
  | method (m : DbusMethod)
  | prop (p : DbusProperty)
  | signal (s : DbusSignal)

/-- The interface-name / serving-flag stamping that `DbusInterfaceMeta.__new__`
applies to every directly declared descriptor (dbus_proxy.py:531-536). -/
def stampDescriptor (interface_name : Option String) (serving_enabled : Bool) :
    DbusDescriptor → DbusDescriptor
  | DbusDescriptor.method m =>
    DbusDescriptor.method
      { m with interface_name := interface_name, serving_enabled := serving_enabled }
  | DbusDescriptor.prop p =>
    DbusDescriptor.prop
      { p with interface_name := interface_name, serving_enabled := serving_enabled }
  | DbusDescriptor.signal s =>
    DbusDescriptor.signal
      { s with interface_name := interface_name, serving_enabled := serving_enabled }

/-- An entry of a class body namespace: a plain (non-dbus) value, a dbus
descriptor, or a `DbusOverload` marker wrapping a replacement function. -/
inductive NamespaceEntry where
  | plain (id : Nat)
  | descriptor (d : DbusDescriptor)
  | overload
      (original : DbusInterfaceInstance → List Val → List (String × Val) → Except PyErr Val)

def NamespaceEntry.isOverload : NamespaceEntry → Bool
  | NamespaceEntry.overload _ => true
  | _ => false

def NamespaceEntry.isDescriptor : NamespaceEntry → Bool
  | NamespaceEntry.descriptor _ => true
  | _ => false

/-- A base class as `DbusInterfaceMeta.__new__` sees it: its
`_dbus_declared_interfaces` key set and its `__dict__`. -/
structure BaseClass where
  dbus_declared_interfaces : List String
  dict : List (String × NamespaceEntry)

/-- The union of `_dbus_declared_interfaces` over the bases
(dbus_proxy.py:538-542). -/
def superDeclared (bases : List BaseClass) : List String :=
  bases.foldr (fun b acc => b.dbus_declared_interfaces ++ acc) []

/-- The `for base in bases: base.__dict__[key]` lookup with `break` on the
first hit (dbus_proxy.py:546-551). -/
def findBaseDef (bases : List BaseClass) (key : String) : Option NamespaceEntry :=
  match bases with
  | [] => none
  | b :: rest =>
    match b.dict.find? (fun kv => kv.1 == key) with
    | some kv => some kv.2
    | none => findBaseDef rest key

/-- The redeclaration-validation loop of `DbusInterfaceMeta.__new__`
(dbus_proxy.py:544-564), processed in namespace order over the entries whose
key is an inherited declared key.  A `DbusOverload` over an inherited
`DbusMethod` is deep-copied with the replacement callable and its key added
to the declared set; a `DbusOverload` over any other descriptor raises a
bare `TypeError`; an inherited key redeclared without the marker raises
`TypeError` with the overload message; a missing base definition leaves
`sc_dbus_def` unbound (`NameError`), a non-descriptor base definition fails
the `isinstance` assert. -/
def processOverrides (superD : List String) (bases : List BaseClass) :
    List (String × NamespaceEntry) →
      Except PyErr (List (String × NamespaceEntry) × List String)
  | [] => Except.ok ([], [])
  | (key, entry) :: rest =>
    if key ∈ superD then
      match entry with
      | NamespaceEntry.overload f =>
        match findBaseDef bases key with
        | none => Except.error PyErr.nameError
        | some (NamespaceEntry.descriptor (DbusDescriptor.method m)) =>
          (match processOverrides superD bases rest with
           | Except.ok (ns, ks) =>
             Except.ok ((key, NamespaceEntry.descriptor (DbusDescriptor.method
               { m with original_method := f })) :: ns, key :: ks)
           | Except.error e => Except.error e)
        | some (NamespaceEntry.descriptor _) => Except.error (PyErr.typeError "")
        | some _ => Except.error PyErr.assertionError
      | _ =>
        Except.error (PyErr.typeError
          "Attempted to overload dbus defenition without using @dbus_overload decorator")
    else
      match processOverrides superD bases rest with
      | Except.ok (ns, ks) => Except.ok ((key, entry) :: ns, ks)
      | Except.error e => Except.error e

/-- The class object `DbusInterfaceMeta.__new__` assembles
(dbus_proxy.py:566-572). -/
structure ClassInfo where
  class_namespace : List (String × NamespaceEntry)
  dbus_declared_interfaces : List String
  dbus_interface_name : Option String
  dbus_serving_enabled : Bool

/-- `DbusInterfaceMeta.__new__` (dbus_proxy.py:522-572): stamp the directly
declared descriptors, record their keys, then run the redeclaration
validation against the union of the bases' declared keys. -/
def DbusInterfaceMeta.new (namespace_list : List (String × NamespaceEntry))
    (bases : List BaseClass) (interface_name : Option String)
    (serving_enabled : Bool) : Except PyErr ClassInfo :=
  let stamped := namespace_list.map (fun kv =>
    match kv.2 with
    | NamespaceEntry.descriptor d =>
      (kv.1, NamespaceEntry.descriptor (stampDescriptor interface_name serving_enabled d))
    | e => (kv.1, e))
  let declared := (stamped.filter (fun kv => kv.2.isDescriptor)).map (fun kv => kv.1)
  match processOverrides (superDeclared bases) bases stamped with
  | Except.error e => Except.error e
  | Except.ok (ns, overloadKeys) =>
    Except.ok
      { class_namespace := ns
        dbus_declared_interfaces := declared ++ overloadKeys
        dbus_interface_name := interface_name
        dbus_serving_enabled := serving_enabled }

theorem processOverrides_error_of_bad_redecl (superD : List String)
    (bases : List BaseClass) (l : List (String × NamespaceEntry))
    (hnomark : ∀ kv ∈ l, kv.1 ∈ superD → kv.2.isOverload = false)
    (hbad : ∃ kv ∈ l, kv.1 ∈ superD) :
    processOverrides superD bases l =
      Except.error (PyErr.typeError
        "Attempted to overload dbus defenition without using @dbus_overload decorator") := by
  induction l with
  | nil => simp at hbad
  | cons kv rest ih =>
    obtain ⟨key, entry⟩ := kv
    by_cases hk : key ∈ superD
    · have hno := hnomark (key, entry) (List.mem_cons_self _ _) hk
      simp only [processOverrides, if_pos hk]
      cases entry with
      | plain id => rfl
      | descriptor d => rfl
      | overload f => simp [NamespaceEntry.isOverload] at hno
    · simp only [processOverrides, if_neg hk]
      have hbad' : ∃ kv ∈ rest, kv.1 ∈ superD := by
        obtain ⟨kv2, hmem, hkv2⟩ := hbad
        rcases List.mem_cons.mp hmem with heq | hmem2
        · subst heq
          exact absurd hkv2 hk
        · exact ⟨kv2, hmem2, hkv2⟩
      have := ih (fun kv2 hm hs => hnomark kv2 (List.mem_cons_of_mem _ hm) hs) hbad'
      rw [this]

theorem processOverrides_ok_of_fresh (superD : List String)
    (bases : List BaseClass) (l : List (String × NamespaceEntry))
    (hfresh : ∀ kv ∈ l, kv.1 ∉ superD) :
    ∃ res, processOverrides superD bases l = Except.ok res := by
  induction l with
  | nil => exact ⟨([], []), rfl⟩
  | cons kv rest ih =>
    obtain ⟨key, entry⟩ := kv
    have hk : key ∉ superD := hfresh (key, entry) (List.mem_cons_self _ _)
    obtain ⟨res, hres⟩ := ih (fun kv2 hm => hfresh kv2 (List.mem_cons_of_mem _ hm))
    refine ⟨((key, entry) :: res.1, res.2), ?_⟩
    simp only [processOverrides, if_neg hk]
    rw [hres]

/-- Stamping of one namespace entry (descriptors only), as a function on
key/entry pairs. -/
def stampEntry (interface_name : Option String) (serving_enabled : Bool)
    (kv : String × NamespaceEntry) : String × NamespaceEntry :=
  match kv.2 with
  | NamespaceEntry.descriptor d =>
    (kv.1, NamespaceEntry.descriptor (stampDescriptor interface_name serving_enabled d))
  | e => (kv.1, e)

theorem stampEntry_fst (iname : Option String) (se : Bool)
    (kv : String × NamespaceEntry) : (stampEntry iname se kv).1 = kv.1 := by
  obtain ⟨k, e⟩ := kv
  cases e <;> rfl

theorem stampEntry_isOverload (iname : Option String) (se : Bool)
    (kv : String × NamespaceEntry) :
    (stampEntry iname se kv).2.isOverload = kv.2.isOverload := by
  obtain ⟨k, e⟩ := kv
  cases e <;> rfl

/-- C5: at class construction, any re-declaration at a member key inherited
as a dbus-exposed member — whether a plain value or a fresh dbus descriptor,
i.e. anything but the explicit `dbus_overload` marker — fails with a
`TypeError`, whereas a class body declaring only brand-new keys constructs
successfully. -/
theorem c5_meta_redeclaration (namespace_list : List (String × NamespaceEntry))
    (bases : List BaseClass) (interface_name : Option String)
    (serving_enabled : Bool) :
    ((∀ kv ∈ namespace_list, kv.1 ∈ superDeclared bases → kv.2.isOverload = false) →
      (∃ kv ∈ namespace_list, kv.1 ∈ superDeclared bases) →
      DbusInterfaceMeta.new namespace_list bases interface_name serving_enabled =
        Except.error (PyErr.typeError
          "Attempted to overload dbus defenition without using @dbus_overload decorator")) ∧
    ((∀ kv ∈ namespace_list, kv.1 ∉ superDeclared bases) →
      ∃ info, DbusInterfaceMeta.new namespace_list bases interface_name serving_enabled =
        Except.ok info) := by
  have hmapeq : namespace_list.map (fun kv =>
      match kv.2 with
      | NamespaceEntry.descriptor d =>
        (kv.1, NamespaceEntry.descriptor (stampDescriptor interface_name serving_enabled d))
      | e => (kv.1, e)) =
      namespace_list.map (stampEntry interface_name serving_enabled) := by
    apply List.map_congr_left
    intro kv _
    obtain ⟨k, e⟩ := kv
    cases e <;> rfl
  constructor
  · intro hnomark hbad
    have hnomark' : ∀ kv ∈ namespace_list.map (stampEntry interface_name serving_enabled),
        kv.1 ∈ superDeclared bases → kv.2.isOverload = false := by
      intro kv hm hs
      rw [List.mem_map] at hm
      obtain ⟨a, ha, hga⟩ := hm
      subst hga
      rw [stampEntry_isOverload]
      exact hnomark a ha (by rw [stampEntry_fst] at hs; exact hs)
    have hbad' : ∃ kv ∈ namespace_list.map (stampEntry interface_name serving_enabled),
        kv.1 ∈ superDeclared bases := by
      obtain ⟨kv, hm, hs⟩ := hbad
      exact ⟨stampEntry interface_name serving_enabled kv, List.mem_map_of_mem _ hm,
        by rw [stampEntry_fst]; exact hs⟩
    have herr := processOverrides_error_of_bad_redecl (superDeclared bases) bases
      (namespace_list.map (stampEntry interface_name serving_enabled)) hnomark' hbad'
    simp only [DbusInterfaceMeta.new, hmapeq]
    rw [herr]
  · intro hfresh
    have hfresh' : ∀ kv ∈ namespace_list.map (stampEntry interface_name serving_enabled),
        kv.1 ∉ superDeclared bases := by
      intro kv hm
      rw [List.mem_map] at hm
      obtain ⟨a, ha, hga⟩ := hm
      subst hga
      rw [stampEntry_fst]
      exact hfresh a ha
    obtain ⟨res, hres⟩ := processOverrides_ok_of_fresh (superDeclared bases) bases
      (namespace_list.map (stampEntry interface_name serving_enabled)) hfresh'
    obtain ⟨ns, ks⟩ := res
    refine ⟨{ class_namespace := ns
              dbus_declared_interfaces :=
                (((namespace_list.map (stampEntry interface_name serving_enabled)).filter
                  (fun kv => kv.2.isDescriptor)).map (fun kv => kv.1)) ++ ks
              dbus_interface_name := interface_name
              dbus_serving_enabled := serving_enabled }, ?_⟩
    simp only [DbusInterfaceMeta.new, hmapeq]
    rw [hres]

/-- A base class declaring the dbus member key `ping`. -/
def c5Base : BaseClass where
  dbus_declared_interfaces := ["ping"]
  dict := [("ping", NamespaceEntry.descriptor (DbusDescriptor.method c1Method))]

theorem c5_meta_redeclaration_witness :
    (DbusInterfaceMeta.new [("ping", NamespaceEntry.plain 0)] [c5Base]
        (some "org.example.Sub") true =
      Except.error (PyErr.typeError
        "Attempted to overload dbus defenition without using @dbus_overload decorator")) ∧
    (∃ info, DbusInterfaceMeta.new [("brand_new", NamespaceEntry.plain 0)] [c5Base]
        (some "org.example.Sub") true = Except.ok info) :=
  ⟨(c5_meta_redeclaration [("ping", NamespaceEntry.plain 0)] [c5Base]
      (some "org.example.Sub") true).1
      (by
        intro kv hm _
        simp only [List.mem_singleton] at hm
        subst hm
        rfl)
      ⟨("ping", NamespaceEntry.plain 0), by simp [superDeclared, c5Base]⟩,
    (c5_meta_redeclaration [("brand_new", NamespaceEntry.plain 0)] [c5Base]
      (some "org.example.Sub") true).2
      (by
        intro kv hm
        simp only [List.mem_singleton] at hm
        subst hm
        simp [superDeclared, c5Base])⟩

/-- A bound member as `getmembers(self)` yields it during `start_serving`
(`DbusMethodBinded` / `DbusPropertyBinded` / `DbusSignalBinded`, each holding
its descriptor; the owning instance is the one being served). -/
inductive BoundMember where
  | method (m : DbusMethod)
  | prop (p : DbusProperty)
  | signal (s : DbusSignal)

/-- One `bus.add_interface(new_interface, object_path, interface_name)` call
(dbus_proxy.py:655-656). -/
structure BusRegistration where
  object_path : String
  interface_name : String
  iface : Registration

/-- Append `value` to the group of `iname` in the insertion-ordered
`interface_map` (the `try/except KeyError` dict logic,
dbus_proxy.py:613-619). -/
def insertGroup (imap : List (String × List BoundMember)) (iname : String)
    (value : BoundMember) : List (String × List BoundMember) :=
  match imap with
  | [] => [(iname, [value])]
  | (k, vs) :: rest =>
    if k == iname then (k, vs ++ [value]) :: rest
    else (k, vs) :: insertGroup rest iname value

/-- The member-collection loop of `start_serving` (dbus_proxy.py:597-619):
method and property bound members with serving enabled are grouped under
their interface name (asserted non-None); serving-disabled members are
skipped; signal bound members fall into the `else: continue` branch and are
never collected. -/
def collectMembers :
    List BoundMember → List (String × List BoundMember) →
      Except PyErr (List (String × List BoundMember))
  | [], imap => Except.ok imap
  | BoundMember.method m :: rest, imap =>
    if m.serving_enabled then
      match m.interface_name with
      | some iname =>
        collectMembers rest (insertGroup imap iname (BoundMember.method m))
      | none => Except.error PyErr.assertionError
    else collectMembers rest imap
  | BoundMember.prop p :: rest, imap =>
    if p.serving_enabled then
      match p.interface_name with
      | some iname =>
        collectMembers rest (insertGroup imap iname (BoundMember.prop p))
      | none => Except.error PyErr.assertionError
    else collectMembers rest imap
  | BoundMember.signal _ :: rest, imap => collectMembers rest imap

/-- The `SdBusInterface.add_method` / `add_property` / `add_signal` call for
one grouped member (dbus_proxy.py:623-653).  The signal branch mirrors
dbus_proxy.py:645-651; it is dead code, since `collectMembers` never groups
signals. -/
def memberToEntry : BoundMember → RegEntry
  | BoundMember.method m =>
    RegEntry.method m.method_name m.input_signature m.input_args_names
      m.result_signature m.result_args_names m.flags
  | BoundMember.prop p =>
    RegEntry.property p.property_name p.property_signature p.property_set.isSome p.flags
  | BoundMember.signal s =>
    RegEntry.signal s.signal_name s.signature s.args_names s.flags

/-- `DbusInterfaceBase.start_serving` (dbus_proxy.py:590-657): store the bus
handle and serving object path, collect and group the serving-enabled
method/property bound members by interface name, build one `SdBusInterface`
registration per group, register each with the bus at the object path and
append it to `activated_interfaces` (which is only read when at least one
group exists). -/
def DbusInterfaceBase.start_serving (inst : DbusInterfaceInstance)
    (members : List BoundMember) (bus : Nat) (object_path : String) :
    Except PyErr (List BusRegistration × DbusInterfaceInstance) :=
  let inst1 : DbusInterfaceInstance :=
    { inst with attached_bus := some (some bus),
                serving_object_path := some (some object_path) }
  match collectMembers members [] with
  | Except.error e => Except.error e
  | Except.ok imap =>
    let regs := imap.map (fun g =>
      ({ object_path := object_path, interface_name := g.1,
         iface := { entries := g.2.map memberToEntry } } : BusRegistration))
    match regs with
    | [] => Except.ok ([], inst1)
    | _ =>
      match getAttr inst1.activated_interfaces "activated_interfaces" with
      | Except.error e => Except.error e
      | Except.ok acts =>
        Except.ok
          (regs,
            { inst1 with
                activated_interfaces := some (acts ++ regs.map (fun r => r.iface)) })

/-- A serving-enabled signal descriptor under `org.example.Test`. -/
def sampleSignal : DbusSignal where
  signal_name := "SomethingHappened"
  signature := "s"
  args_names := []
  flags := 0
  interface_name := some "org.example.Test"
  serving_enabled := true

/-- A serving-disabled method under the same interface. -/
def disabledMethod : DbusMethod where
  original_method := fun _ _ _ => Except.ok Val.none
  args_names := []
  args_defaults := []
  method_name := "Hidden"
  input_signature := ""
  input_args_names := ""
  result_signature := ""
  result_args_names := []
  flags := 0
  interface_name := some "org.example.Test"
  serving_enabled := false

/-- C2 (evaluation at the failing input): serving an instance that exposes a
serving-enabled method, property and signal plus a serving-disabled method
under one interface name registers exactly one interface — but it contains
only the method and the property.  The enumeration loop of `start_serving`
skips `DbusSignalBinded` members via its `else: continue` branch, leaving
the `add_signal` branch of the build loop unreachable, so contrary to the
claim the signal is not part of the registration.  The serving-disabled
method is (correctly) not registered. -/
theorem c2_start_serving_skips_signals :
    DbusInterfaceBase.start_serving initInstance
      [BoundMember.method c1Method, BoundMember.prop roProperty,
       BoundMember.signal sampleSignal, BoundMember.method disabledMethod]
      7 "/obj" =
    Except.ok
      ([{ object_path := "/obj", interface_name := "org.example.Test",
          iface := { entries := [
            RegEntry.method "AB" "ii" "" "" [] 0,
            RegEntry.property "SomeProp" "s" false 0] } }],
        { initInstance with
            attached_bus := some (some 7),
            serving_object_path := some (some "/obj"),
            activated_interfaces := some [{ entries := [
              RegEntry.method "AB" "ii" "" "" [] 0,
              RegEntry.property "SomeProp" "s" false 0] }] }) := rfl

/-- The wire-encoding rule of `_emit_message` (dbus_proxy.py:488-493): if the
declared signature does not start a structure type and the value is a tuple,
splat it into positional values; otherwise append it as one value. -/
def emitPayload (s : DbusSignal) (args : Val) : List Val :=
  match args with
  | Val.tuple xs =>
    if s.signature.startsWith "(" then [Val.tuple xs] else xs
  | v => [v]

/-- `DbusSignalBinded._emit_message` (dbus_proxy.py:476-495): assert the
serving attributes, build and send one signal message. -/
def DbusSignalBinded.emit_message (s : DbusSignal) (inst : DbusInterfaceInstance)
    (args : Val) : Except PyErr Msg :=
  exBind (getAttr inst.attached_bus "attached_bus") fun busOpt =>
  exBind (assertNotNone busOpt) fun _ =>
  exBind (getAttr inst.serving_object_path "serving_object_path") fun sopOpt =>
  exBind (assertNotNone sopOpt) fun sop =>
  exBind (assertNotNone s.interface_name) fun iname =>
  Except.ok (Msg.signal_msg sop iname s.signal_name s.signature (emitPayload s args))

/-- `self._local_signal_queues[signal]` (raising `KeyError` is modelled as
`none`). -/
def lookupQueues (qmap : List (DbusSignal × List (Option (List Val))))
    (s : DbusSignal) : Option (List (Option (List Val))) :=
  match qmap.find? (fun kv => kv.1 == s) with
  | some kv => some kv.2
  | none => none

/-- Replace the queue-reference list stored under `s`. -/
def updateQueues (qmap : List (DbusSignal × List (Option (List Val))))
    (s : DbusSignal) (newRefs : List (Option (List Val))) :
    List (DbusSignal × List (Option (List Val))) :=
  qmap.map (fun kv => if kv.1 == s then (kv.1, newRefs) else kv)

/-- The delivery loop of `emit` (dbus_proxy.py:507-510): dereference each
weak reference, `assert` it is live, `put_nowait` the value.  (In Python a
dead reference reached after some deliveries leaves those deliveries in
place and raises; the model reports just the raise.) -/
def deliverAll (refs : List (Option (List Val))) (v : Val) :
    Except PyErr (List (Option (List Val))) :=
  match refs with
  | [] => Except.ok []
  | none :: _ => Except.error PyErr.assertionError
  | some q :: rest =>
    match deliverAll rest v with
    | Except.ok rs => Except.ok (some (q ++ [v]) :: rs)
    | Except.error e => Except.error e

/-- `DbusSignalBinded.emit` (dbus_proxy.py:497-510): if
`activated_interfaces` is non-empty, broadcast one bus signal message; then
push the value into every local subscriber queue registered for this signal
(a missing key means no local subscribers: return silently). -/
def DbusSignalBinded.emit (s : DbusSignal) (inst : DbusInterfaceInstance)
    (args : Val) : Except PyErr (List Msg × DbusInterfaceInstance) :=
  match getAttr inst.activated_interfaces "activated_interfaces" with
  | Except.error e => Except.error e
  | Except.ok acts =>
    match (if acts.isEmpty then Except.ok ([] : List Msg)
           else
             match DbusSignalBinded.emit_message s inst args with
             | Except.ok msg => Except.ok [msg]
             | Except.error e => Except.error e) with
    | Except.error e => Except.error e
    | Except.ok msgs =>
      match getAttr inst.local_signal_queues "_local_signal_queues" with
      | Except.error e => Except.error e
      | Except.ok qmap =>
        match lookupQueues qmap s with
        | none => Except.ok (msgs, inst)
        | some refs =>
          match deliverAll refs args with
          | Except.error e => Except.error e
          | Except.ok newRefs =>
            Except.ok
              (msgs,
                { inst with
                    local_signal_queues := some (updateQueues qmap s newRefs) })

/-- Registering a fresh local subscriber queue under the signal's key
(dbus_proxy.py:446-459), creating the key's list on `KeyError`. -/
def insertQueueRef (qmap : List (DbusSignal × List (Option (List Val))))
    (s : DbusSignal) : List (DbusSignal × List (Option (List Val))) :=
  match lookupQueues qmap s with
  | some refs => updateQueues qmap s (refs ++ [some []])
  | none => qmap ++ [(s, [some []])]

/-- `DbusSignalBinded._get_local_queue` (dbus_proxy.py:446-459): read
`_local_signal_queues` (an `AttributeError` from a never-initialized
attribute propagates — the `except KeyError` does not catch it), create the
signal's list if missing, and register a weak reference to a fresh queue. -/
def DbusSignalBinded.get_local_queue (s : DbusSignal)
    (inst : DbusInterfaceInstance) :
    Except PyErr (List Val × DbusInterfaceInstance) :=
  match inst.local_signal_queues with
  | none => Except.error (PyErr.attributeError "_local_signal_queues")
  | some qmap =>
    Except.ok ([], { inst with local_signal_queues := some (insertQueueRef qmap s) })

theorem deliverAll_all_live (refs : List (Option (List Val))) (v : Val)
    (hlive : ∀ r ∈ refs, r.isSome = true) :
    deliverAll refs v =
      Except.ok (refs.map (fun r => r.map (fun q => q ++ [v]))) := by
  induction refs with
  | nil => rfl
  | cons r rest ih =>
    cases r with
    | none =>
      have := hlive Option.none (List.mem_cons_self _ _)
      simp at this
    | some q =>
      simp only [deliverAll]
      rw [ih (fun r hm => hlive r (List.mem_cons_of_mem _ hm))]
      rfl

theorem deliverAll_dead (refs : List (Option (List Val))) (v : Val)
    (hdead : Option.none ∈ refs) :
    deliverAll refs v = Except.error PyErr.assertionError := by
  induction refs with
  | nil => simp at hdead
  | cons r rest ih =>
    cases r with
    | none => rfl
    | some q =>
      have hdead' : Option.none ∈ rest := by
        rcases List.mem_cons.mp hdead with h | h
        · cases h
        · exact h
      simp only [deliverAll]
      rw [ih hdead']

/-- C3 counterexample: on an instance with zero active registrations whose
subscriber list for the signal holds a dead weak reference followed by a
live queue, `emit` raises `AssertionError` (`assert local_queue is not
None`) instead of skipping the dead reference: the live subscriber receives
nothing, contradicting the claim that the value is delivered to every live
subscriber with dead references skipped. -/
theorem c3_counterexample :
    DbusSignalBinded.emit sampleSignal
      { initInstance with
          local_signal_queues := some [(sampleSignal, [Option.none, some []])] }
      (Val.int 5) = Except.error PyErr.assertionError := rfl

/-- C3 amended: a bus signal message is sent if and only if the instance has
at least one active served interface registration, and the value is pushed
into every local subscriber queue registered for the signal — provided every
registered weak reference is live.  A dead reference is not skipped: the
delivery loop asserts liveness and raises `AssertionError` (dead references
are instead pruned eagerly by the weak-reference cleanup callback,
dbus_proxy.py:441-444). -/
theorem c3_emit_amended (s : DbusSignal) (inst : DbusInterfaceInstance) (args : Val)
    (acts : List Registration) (qmap : List (DbusSignal × List (Option (List Val))))
    (refs : List (Option (List Val)))
    (hacts : inst.activated_interfaces = some acts)
    (hq : inst.local_signal_queues = some qmap)
    (hlook : lookupQueues qmap s = some refs) :
    ((∀ r ∈ refs, r.isSome = true) → acts = [] →
      DbusSignalBinded.emit s inst args =
        Except.ok
          ([],
            { inst with
                local_signal_queues := some (updateQueues qmap s
                  (refs.map (fun r => r.map (fun q => q ++ [args])))) })) ∧
    ((∀ r ∈ refs, r.isSome = true) → acts ≠ [] →
      ∀ b sop iname, inst.attached_bus = some (some b) →
        inst.serving_object_path = some (some sop) →
        s.interface_name = some iname →
        DbusSignalBinded.emit s inst args =
          Except.ok
            ([Msg.signal_msg sop iname s.signal_name s.signature (emitPayload s args)],
              { inst with
                  local_signal_queues := some (updateQueues qmap s
                    (refs.map (fun r => r.map (fun q => q ++ [args])))) })) ∧
    (acts = [] → Option.none ∈ refs →
      DbusSignalBinded.emit s inst args = Except.error PyErr.assertionError) := by
  refine ⟨?_, ?_, ?_⟩
  · intro hlive hnil
    subst hnil
    simp [DbusSignalBinded.emit, hacts, hq, hlook, getAttr,
      deliverAll_all_live refs args hlive]
  · intro hlive hne b sop iname hbus hsop hiname
    have hnotEmpty : acts.isEmpty = false := by
      cases acts with
      | nil => exact absurd rfl hne
      | cons a rest => rfl
    simp [DbusSignalBinded.emit, DbusSignalBinded.emit_message, hacts, hq, hlook,
      hbus, hsop, hiname, hnotEmpty, getAttr, assertNotNone, exBind,
      deliverAll_all_live refs args hlive]
  · intro hnil hdead
    subst hnil
    simp [DbusSignalBinded.emit, hacts, hq, hlook, getAttr,
      deliverAll_dead refs args hdead]

theorem c3_emit_amended_witness :
    DbusSignalBinded.emit sampleSignal
      { initInstance with
          local_signal_queues := some [(sampleSignal, [some []])] }
      (Val.int 5) =
    Except.ok
      ([],
        { initInstance with
            local_signal_queues := some [(sampleSignal, [some [Val.int 5]])] }) := by
  have h := (c3_emit_amended sampleSignal
      { initInstance with
          local_signal_queues := some [(sampleSignal, [some []])] }
      (Val.int 5) [] [(sampleSignal, [some []])] [some []]
      rfl rfl rfl).1
    (by intro r hm; simp only [List.mem_singleton] at hm; subst hm; rfl) rfl
  exact h.trans (by rfl)

/-- `cls.__new__(cls)`: a freshly allocated instance on which `__init__` has
not run — no attribute assigned yet. -/
def blankInstance : DbusInterfaceInstance where
  activated_interfaces := Option.none
  is_binded := Option.none
  remote_service_name := Option.none
  remote_object_path := Option.none
  attached_bus := Option.none
  serving_object_path := Option.none
  local_signal_queues := Option.none

/-- `DbusInterfaceBase._connect` (dbus_proxy.py:659-669). -/
def DbusInterfaceBase.connect (inst : DbusInterfaceInstance) (bus : Nat)
    (service_name object_path : String) : DbusInterfaceInstance :=
  { inst with
      is_binded := some true,
      attached_bus := some (some bus),
      remote_service_name := some (some service_name),
      remote_object_path := some (some object_path) }

/-- `DbusInterfaceBase.new_connect` (dbus_proxy.py:671-683): allocate with
`cls.__new__(cls)` — skipping `__init__` — then `_connect`. -/
def DbusInterfaceBase.new_connect (bus : Nat) (service_name object_path : String) :
    DbusInterfaceInstance :=
  DbusInterfaceBase.connect blankInstance bus service_name object_path

/-- C10: `new_connect` returns a fresh instance in proxy-bound state —
`is_binded` is True and the attached bus, remote service name and remote
object path hold the given arguments — but `__init__` never ran, so
`activated_interfaces`, `serving_object_path` and `_local_signal_queues`
were never assigned; consequently local signal emission and local signal
subscription on such an instance raise `AttributeError` rather than falling
back to local delivery. -/
theorem c10_new_connect (bus : Nat) (service_name object_path : String) :
    (DbusInterfaceBase.new_connect bus service_name object_path).is_binded
        = some true ∧
    (DbusInterfaceBase.new_connect bus service_name object_path).attached_bus
        = some (some bus) ∧
    (DbusInterfaceBase.new_connect bus service_name object_path).remote_service_name
        = some (some service_name) ∧
    (DbusInterfaceBase.new_connect bus service_name object_path).remote_object_path
        = some (some object_path) ∧
    (DbusInterfaceBase.new_connect bus service_name object_path).activated_interfaces
        = Option.none ∧
    (DbusInterfaceBase.new_connect bus service_name object_path).serving_object_path
        = Option.none ∧
    (DbusInterfaceBase.new_connect bus service_name object_path).local_signal_queues
        = Option.none ∧
    (∀ s args, DbusSignalBinded.emit s
        (DbusInterfaceBase.new_connect bus service_name object_path) args =
      Except.error (PyErr.attributeError "activated_interfaces")) ∧
    (∀ s, DbusSignalBinded.get_local_queue s
        (DbusInterfaceBase.new_connect bus service_name object_path) =
      Except.error (PyErr.attributeError "_local_signal_queues")) :=
  ⟨rfl, rfl, rfl, rfl, rfl, rfl, rfl, fun _ _ => rfl, fun _ => rfl⟩
